import Mathlib

/-
Verification of the Booking & Payment Verification Engine of the
Reservas-ZonasComunitarias repository.

The engine's state is the durable store's set of reservation rows, embedded
as a `List Reservation`.  The store queries issued by the engine
(`eq`/`neq` filters, `update ... eq id`, `insert`) are embedded as list
filters, maps and appends.  Wall-clock times of day are `HM` records
(hours, minutes); calendar dates, identifiers and instants are `Nat`
(dates and ids are only compared for equality, so any type with decidable
equality is faithful).
-/

namespace Reservas

/-- Wall-clock time of day: hours and minutes. -/
structure HM where
  hours : Nat
  minutes : Nat
deriving DecidableEq, Repr

/-- Modelled from the spec: `timeToMinutes` is imported by the source from
`utils/dateUtils`, a file not present among the sources; the spec defines
intervals as "wall-clock time-of-day converted to minutes-since-midnight". -/
def timeToMinutes (t : HM) : Nat :=
  t.hours * 60 + t.minutes

/-- Lifecycle status domain of a reservation (`src/types`). -/
inductive ReservationStatus where
  | confirmed
  | upcoming
  | inProgress
  | completed
  | cancelled
deriving DecidableEq, Repr

/-- Payment status domain (`PaymentStatus` in `src/types`). -/
inductive PaymentStatus where
  | notRequired
  | pending
  | submitted
  | verified
deriving DecidableEq, Repr

/-- A reservation row of the durable store (table `reservations`). -/
structure Reservation where
  id : Nat
  spaceId : Nat
  userId : Nat
  date : Nat
  startTime : HM
  endTime : HM
  event : String
  status : ReservationStatus
  createdAt : Nat
  requiresPayment : Bool
  paymentStatus : PaymentStatus
  paymentProofUrl : Option String
  paymentVerifiedAt : Option Nat
  paymentVerifiedBy : Option Nat
deriving DecidableEq, Repr

/-- The three-disjunct overlap test used by `isTimeSlotAvailable`
(ReservationContext lines 354-358), on minutes-since-midnight values:
request start falls inside the existing interval, or request end falls
inside it, or the request fully contains it. -/
def overlaps (requestStart requestEnd resStart resEnd : Nat) : Bool :=
  (decide (requestStart ≥ resStart) && decide (requestStart < resEnd)) ||
  (decide (requestEnd > resStart) && decide (requestEnd ≤ resEnd)) ||
  (decide (requestStart ≤ resStart) && decide (requestEnd ≥ resEnd))

/-- `isTimeSlotAvailable(spaceId, date, startTime, endTime)`: fetch the rows
with the same space and date whose status is not `cancelled` (the store
query's `eq`/`eq`/`neq` filters), and succeed iff none overlaps the request.
The source's early return on an empty result set is subsumed: `any` of an
empty list is `false`. -/
def isTimeSlotAvailable (store : List Reservation) (spaceId date : Nat)
    (startTime endTime : HM) : Bool :=
  let data := store.filter (fun r =>
    decide (r.spaceId = spaceId) && decide (r.date = date) &&
      !decide (r.status = ReservationStatus.cancelled))
  let requestStartMinutes := timeToMinutes startTime
  let requestEndMinutes := timeToMinutes endTime
  !(data.any (fun r =>
    overlaps requestStartMinutes requestEndMinutes
      (timeToMinutes r.startTime) (timeToMinutes r.endTime)))

/-- The fields of a booking request (`addReservation`'s argument). -/
structure ReservationInput where
  spaceId : Nat
  userId : Nat
  date : Nat
  startTime : HM
  endTime : HM
  event : String
  requiresPayment : Bool
deriving DecidableEq, Repr

/-- The row inserted by a successful `addReservation`: status `confirmed`,
payment status derived from `requiresPayment`, proof and audit fields null. -/
def mkReservation (newId createdAt : Nat) (rd : ReservationInput) : Reservation :=
  { id := newId
    spaceId := rd.spaceId
    userId := rd.userId
    date := rd.date
    startTime := rd.startTime
    endTime := rd.endTime
    event := rd.event
    status := ReservationStatus.confirmed
    createdAt := createdAt
    requiresPayment := rd.requiresPayment
    paymentStatus := if rd.requiresPayment then PaymentStatus.pending else PaymentStatus.notRequired
    paymentProofUrl := none
    paymentVerifiedAt := none
    paymentVerifiedBy := none }

/-- `addReservation` (ReservationContext lines 155-187): if the slot is not
available, return `false` and write nothing; otherwise insert the new row
and return `true`.  The result pairs the returned boolean with the store
after the call. -/
def addReservation (store : List Reservation) (newId createdAt : Nat)
    (rd : ReservationInput) : Bool × List Reservation :=
  if !(isTimeSlotAvailable store rd.spaceId rd.date rd.startTime rd.endTime) then
    (false, store)
  else
    (true, store ++ [mkReservation newId createdAt rd])

/-- The `updates` argument of `updateReservationPayment`.  Each field is
`none` when the corresponding property is absent (JavaScript `undefined`);
`paymentProofUrl` distinguishes an absent property from an explicit null. -/
structure PaymentUpdates where
  paymentStatus : Option PaymentStatus
  paymentProofUrl : Option (Option String)
deriving DecidableEq, Repr

/-- The payload applied to a matching row by `updateReservationPayment`
(lines 303-318): a defined `paymentStatus` is written, and the audit fields
are set to the current instant and current principal when the new status is
`verified`, cleared otherwise; a defined `paymentProofUrl` is written.
Fields absent from the payload are untouched. -/
def applyPaymentPayload (now : Nat) (adminId : Option Nat)
    (u : PaymentUpdates) (r : Reservation) : Reservation :=
  let r1 :=
    match u.paymentStatus with
    | none => r
    | some s =>
      if s = PaymentStatus.verified then
        { r with paymentStatus := s, paymentVerifiedAt := some now,
                 paymentVerifiedBy := adminId }
      else
        { r with paymentStatus := s, paymentVerifiedAt := none,
                 paymentVerifiedBy := none }
  match u.paymentProofUrl with
  | none => r1
  | some url => { r1 with paymentProofUrl := url }

/-- `updateReservationPayment` (lines 299-335): build the payload; when it
is empty, return before any store write or read-model refresh (boolean
`false`); otherwise update every row whose id matches and refresh
(boolean `true`).  `now` is the current instant and `adminId` the current
principal's id, `none` when nobody is signed in (`user?.id ?? null`). -/
def updateReservationPayment (store : List Reservation) (idv : Nat)
    (u : PaymentUpdates) (now : Nat) (adminId : Option Nat) :
    Bool × List Reservation :=
  if u.paymentStatus.isNone && u.paymentProofUrl.isNone then
    (false, store)
  else
    (true, store.map (fun r =>
      if r.id = idv then applyPaymentPayload now adminId u r else r))

/-- `handleMarkPaymentPending` (ReservationsList lines 171-188): the
administrator's ResetToPending issues
`updateReservationPayment(id, { paymentStatus: 'pending' })`
with no `paymentProofUrl` property. -/
def handleMarkPaymentPending (store : List Reservation) (idv now : Nat)
    (adminId : Option Nat) : Bool × List Reservation :=
  updateReservationPayment store idv
    { paymentStatus := some PaymentStatus.pending, paymentProofUrl := none }
    now adminId

/-- Modelled from the spec: `isWithin24Hours` is imported by
ReservationsList from `utils/dateUtils`, a file not present among the
sources; the spec's rule is that a reservation is inside the window when
"its start is less than 24 hours from the current instant".  Instants are
minutes on a common clock. -/
def isWithin24Hours (startInstant now : Int) : Bool :=
  decide (startInstant - now < 24 * 60)

/-- `canCancelReservation` (ReservationsList lines 212-219): not cancellable
when status is `cancelled` or `completed`, otherwise cancellable iff the
start is not within 24 hours of the current instant. -/
def canCancelReservation (status : ReservationStatus) (startInstant now : Int) : Bool :=
  if decide (status = ReservationStatus.cancelled) ||
      decide (status = ReservationStatus.completed) then
    false
  else
    !(isWithin24Hours startInstant now)

/-- The claim-side conflict predicate: some stored reservation for the same
resource and date, not cancelled, overlaps the requested interval. -/
def hasOverlapConflict (store : List Reservation) (rd : ReservationInput) : Bool :=
  store.any (fun r =>
    (decide (r.spaceId = rd.spaceId) && decide (r.date = rd.date) &&
      !decide (r.status = ReservationStatus.cancelled)) &&
    overlaps (timeToMinutes rd.startTime) (timeToMinutes rd.endTime)
      (timeToMinutes r.startTime) (timeToMinutes r.endTime))

/-- A sample booking request used by concrete witnesses. -/
def rdSample : ReservationInput :=
  { spaceId := 2, userId := 3, date := 20250601, startTime := ⟨9, 0⟩,
    endTime := ⟨10, 0⟩, event := "meeting", requiresPayment := true }

/-- A stored reservation awaiting verification, with a proof on record. -/
def resSubmitted : Reservation :=
  { id := 1, spaceId := 2, userId := 3, date := 20250601, startTime := ⟨14, 0⟩,
    endTime := ⟨15, 0⟩, event := "party", status := ReservationStatus.confirmed,
    createdAt := 10, requiresPayment := true,
    paymentStatus := PaymentStatus.submitted, paymentProofUrl := some "proof-url",
    paymentVerifiedAt := none, paymentVerifiedBy := none }

/-- A stored reservation against a resource that requires no payment. -/
def resNoPayment : Reservation :=
  { id := 1, spaceId := 4, userId := 3, date := 20250602, startTime := ⟨9, 0⟩,
    endTime := ⟨10, 0⟩, event := "club", status := ReservationStatus.confirmed,
    createdAt := 11, requiresPayment := false,
    paymentStatus := PaymentStatus.notRequired, paymentProofUrl := none,
    paymentVerifiedAt := none, paymentVerifiedBy := none }

/-- A requester profile row (table `profiles`): the contact fields joined by
the administrator's query. -/
structure ProfileRec where
  fullName : String
  phone : String
deriving DecidableEq, Repr

/-- The current principal's role, supplied by the identity provider. -/
inductive Role where
  | admin
  | member
deriving DecidableEq, Repr

/-- A client-side reservation as formatted by `loadReservations`
(lines 100-124): the stored fields plus the joined space name and the
requester's name and contact. -/
structure ReservationView where
  id : Nat
  spaceId : Nat
  spaceName : String
  userId : Nat
  userName : String
  userContact : String
  date : Nat
  startTime : HM
  endTime : HM
  event : String
  status : ReservationStatus
  createdAt : Nat
  requiresPayment : Bool
  paymentStatus : PaymentStatus
  paymentProofUrl : Option String
  paymentVerifiedAt : Option Nat
  paymentVerifiedBy : Option Nat
deriving DecidableEq, Repr

/-- Modelled from the spec: the rows the durable store returns to the
current principal.  The store's row-level policies are not among the
provided sources; the spec states that administrators see all reservations
while members see only their own. -/
def visibleRows (role : Role) (principalId : Nat) (db : List Reservation) :
    List Reservation :=
  if role = Role.admin then db
  else db.filter (fun row => decide (row.userId = principalId))

/-- The mapping `loadReservations` applies to each fetched row
(lines 100-124): the requester profile is consulted only when the principal
is an administrator (the member query does not join `profiles`), and the
name, contact and space name fall back to the empty string when absent. -/
def formatReservation (role : Role) (profiles : Nat → Option ProfileRec)
    (spaceNames : Nat → Option String) (row : Reservation) : ReservationView :=
  let profile : Option ProfileRec :=
    if role = Role.admin then profiles row.userId else none
  { id := row.id
    spaceId := row.spaceId
    spaceName := (spaceNames row.spaceId).getD ""
    userId := row.userId
    userName := (profile.map ProfileRec.fullName).getD ""
    userContact := (profile.map ProfileRec.phone).getD ""
    date := row.date
    startTime := row.startTime
    endTime := row.endTime
    event := row.event
    status := row.status
    createdAt := row.createdAt
    requiresPayment := row.requiresPayment
    paymentStatus := row.paymentStatus
    paymentProofUrl := row.paymentProofUrl
    paymentVerifiedAt := row.paymentVerifiedAt
    paymentVerifiedBy := row.paymentVerifiedBy }

/-- `loadReservations` (lines 70-128): fetch the rows visible to the
principal, ordered by creation time descending, and format each one.
`profiles` and `spaceNames` embed the store's joined lookups. -/
def loadReservations (role : Role) (principalId : Nat)
    (profiles : Nat → Option ProfileRec) (spaceNames : Nat → Option String)
    (db : List Reservation) : List ReservationView :=
  (((visibleRows role principalId db).mergeSort
      (fun a b => decide (b.createdAt ≤ a.createdAt))).map
    (formatReservation role profiles spaceNames))

/-- `getUserReservations` (lines 204-208): the given user's non-cancelled
reservations from the loaded view, ordered by creation time descending. -/
def getUserReservations (reservations : List ReservationView) (userId : Nat) :
    List ReservationView :=
  (reservations.filter (fun r =>
      decide (r.userId = userId) &&
        !decide (r.status = ReservationStatus.cancelled))).mergeSort
    (fun a b => decide (b.createdAt ≤ a.createdAt))

theorem any_filter_eq {α : Type} (p q : α → Bool) (l : List α) :
    (l.filter p).any q = l.any (fun a => p a && q a) := by
  induction l with
  | nil => rfl
  | cons x xs ih =>
    by_cases h : p x = true <;>
      simp [List.filter_cons, h, ih]

theorem isTimeSlotAvailable_eq_not_conflict (store : List Reservation)
    (rd : ReservationInput) :
    isTimeSlotAvailable store rd.spaceId rd.date rd.startTime rd.endTime =
      !(hasOverlapConflict store rd) := by
  unfold isTimeSlotAvailable hasOverlapConflict
  dsimp only
  rw [any_filter_eq]

/-- Claim C1: whenever some existing non-cancelled reservation for the same
resource and date overlaps the requested interval, `addReservation` returns
`false` and leaves the store unchanged; when no such overlap exists, the new
reservation is persisted (appended to the store) and `true` is returned. -/
theorem addReservation_overlap_enforcement (store : List Reservation)
    (newId createdAt : Nat) (rd : ReservationInput) :
    addReservation store newId createdAt rd =
      if hasOverlapConflict store rd then (false, store)
      else (true, store ++ [mkReservation newId createdAt rd]) := by
  unfold addReservation
  rw [isTimeSlotAvailable_eq_not_conflict, Bool.not_not]

/-- Claim C2: the overlap predicate treats intervals as half-open
`[start, end)`: for valid same-day intervals, one ending at minute `t` and
one starting at minute `t` do not overlap, in either argument order; in
particular `Overlaps((9:00,10:00),(10:00,11:00))` is `false` and
`Overlaps((9:00,10:30),(10:00,11:00))` is `true`. -/
theorem overlaps_half_open (s t e : Nat) (hst : s < t) (hte : t < e) :
    overlaps s t t e = false ∧ overlaps t e s t = false ∧
    overlaps (timeToMinutes ⟨9, 0⟩) (timeToMinutes ⟨10, 0⟩)
      (timeToMinutes ⟨10, 0⟩) (timeToMinutes ⟨11, 0⟩) = false ∧
    overlaps (timeToMinutes ⟨9, 0⟩) (timeToMinutes ⟨10, 30⟩)
      (timeToMinutes ⟨10, 0⟩) (timeToMinutes ⟨11, 0⟩) = true := by
  refine ⟨?_, ?_, by decide, by decide⟩
  · rw [Bool.eq_false_iff]
    simp only [ne_eq, overlaps, Bool.or_eq_true, Bool.and_eq_true,
      decide_eq_true_eq]
    omega
  · rw [Bool.eq_false_iff]
    simp only [ne_eq, overlaps, Bool.or_eq_true, Bool.and_eq_true,
      decide_eq_true_eq]
    omega

/-- Witness for C2 at `s = 540`, `t = 600`, `e = 660`. -/
theorem overlaps_half_open_witness :
    540 < 600 ∧ 600 < 660 ∧
    (overlaps 540 600 600 660 = false ∧ overlaps 600 660 540 600 = false ∧
     overlaps (timeToMinutes ⟨9, 0⟩) (timeToMinutes ⟨10, 0⟩)
       (timeToMinutes ⟨10, 0⟩) (timeToMinutes ⟨11, 0⟩) = false ∧
     overlaps (timeToMinutes ⟨9, 0⟩) (timeToMinutes ⟨10, 30⟩)
       (timeToMinutes ⟨10, 0⟩) (timeToMinutes ⟨11, 0⟩) = true) :=
  ⟨by decide, by decide, overlaps_half_open 540 600 660 (by decide) (by decide)⟩

/-- Claim C3: every reservation created by a successful `addReservation` has
payment status `not_required` when the resource's `requiresPayment` flag is
`false` and `pending` when it is `true`; in both cases its status is
`confirmed` and its proof URL and both payment audit fields are null. -/
theorem addReservation_initial_payment_fields (store : List Reservation)
    (newId createdAt : Nat) (rd : ReservationInput)
    (h : hasOverlapConflict store rd = false) :
    addReservation store newId createdAt rd =
      (true, store ++ [mkReservation newId createdAt rd]) ∧
    (mkReservation newId createdAt rd).paymentStatus =
      (if rd.requiresPayment then PaymentStatus.pending else PaymentStatus.notRequired) ∧
    (rd.requiresPayment = false →
      (mkReservation newId createdAt rd).paymentStatus = PaymentStatus.notRequired) ∧
    (rd.requiresPayment = true →
      (mkReservation newId createdAt rd).paymentStatus = PaymentStatus.pending) ∧
    (mkReservation newId createdAt rd).status = ReservationStatus.confirmed ∧
    (mkReservation newId createdAt rd).paymentProofUrl = none ∧
    (mkReservation newId createdAt rd).paymentVerifiedAt = none ∧
    (mkReservation newId createdAt rd).paymentVerifiedBy = none := by
  refine ⟨?_, rfl, ?_, ?_, rfl, rfl, rfl, rfl⟩
  · unfold addReservation
    rw [isTimeSlotAvailable_eq_not_conflict, Bool.not_not, h]
    simp
  · intro hrp
    simp [mkReservation, hrp]
  · intro hrp
    simp [mkReservation, hrp]

/-- Witness for C3 on the empty store with `rdSample`. -/
theorem addReservation_initial_payment_fields_witness :
    hasOverlapConflict [] rdSample = false ∧
    (addReservation [] 5 9 rdSample = (true, [] ++ [mkReservation 5 9 rdSample]) ∧
     (mkReservation 5 9 rdSample).paymentStatus =
       (if rdSample.requiresPayment then PaymentStatus.pending else PaymentStatus.notRequired) ∧
     (rdSample.requiresPayment = false →
       (mkReservation 5 9 rdSample).paymentStatus = PaymentStatus.notRequired) ∧
     (rdSample.requiresPayment = true →
       (mkReservation 5 9 rdSample).paymentStatus = PaymentStatus.pending) ∧
     (mkReservation 5 9 rdSample).status = ReservationStatus.confirmed ∧
     (mkReservation 5 9 rdSample).paymentProofUrl = none ∧
     (mkReservation 5 9 rdSample).paymentVerifiedAt = none ∧
     (mkReservation 5 9 rdSample).paymentVerifiedBy = none) :=
  ⟨rfl, addReservation_initial_payment_fields [] 5 9 rdSample rfl⟩

/-- Claim C4 counterexample: a call to `updateReservationPayment` that sets
`paymentStatus` to `verified` while no principal is signed in
(`user?.id ?? null` evaluates to null) leaves `paymentVerifiedBy` null even
though the status is `verified`, so the two audit fields are not both
non-null after every verifying call. -/
theorem updateReservationPayment_verified_nullPrincipal_cex :
    ((updateReservationPayment [resSubmitted] 1
        { paymentStatus := some PaymentStatus.verified, paymentProofUrl := none }
        100 none).2).map
      (fun r => (r.paymentStatus, r.paymentVerifiedAt, r.paymentVerifiedBy)) =
    [(PaymentStatus.verified, some 100, (none : Option Nat))] := rfl

/-- Claim C4 (amended): after a call to `updateReservationPayment` that sets
`paymentStatus`, the targeted rows carry `paymentVerifiedAt = now` and
`paymentVerifiedBy` equal to the current principal's id (null when nobody is
signed in) when the new status is `verified`, and both audit fields null
when the new status is anything else; all other rows keep their audit
fields. -/
theorem updateReservationPayment_audit_fields (store : List Reservation)
    (idv : Nat) (s : PaymentStatus) (pu : Option (Option String)) (now : Nat)
    (adminId : Option Nat) :
    ((updateReservationPayment store idv
        { paymentStatus := some s, paymentProofUrl := pu } now adminId).2).map
      (fun r => (r.paymentVerifiedAt, r.paymentVerifiedBy)) =
    store.map (fun r =>
      if r.id = idv then
        (if s = PaymentStatus.verified then ((some now : Option Nat), adminId)
         else (none, none))
      else (r.paymentVerifiedAt, r.paymentVerifiedBy)) := by
  unfold updateReservationPayment
  simp only [Option.isNone_some, Bool.false_and, Bool.false_eq_true,
    if_false, List.map_map]
  refine congrArg (fun f => List.map f store) ?_
  funext r
  by_cases h : r.id = idv <;>
    cases pu <;>
      by_cases hs : s = PaymentStatus.verified <;>
        simp [applyPaymentPayload, h, hs]

/-- Claim C5 counterexample: `updateReservationPayment` performs no
`requiresPayment` check, so a transition targeting a reservation whose
`requiresPayment` is `false` does change its payment sub-record away from
`not_required` instead of being a no-op or rejected. -/
theorem updateReservationPayment_noGuard_cex :
    resNoPayment.requiresPayment = false ∧
    resNoPayment.paymentStatus = PaymentStatus.notRequired ∧
    ((updateReservationPayment [resNoPayment] 1
        { paymentStatus := some PaymentStatus.pending, paymentProofUrl := none }
        0 none).2).map (fun r => r.paymentStatus) =
      [PaymentStatus.pending] :=
  ⟨rfl, rfl, rfl⟩

/-- Claim C5 (amended): `updateReservationPayment` applies a defined
`paymentStatus` to every row with the given id regardless of the row's
`requiresPayment` flag; no engine-level `PaymentNotApplicable` guard exists,
so the payment sub-record of a `requiresPayment = false` reservation does
change when a transition explicitly targets it. -/
theorem updateReservationPayment_applies_status_unconditionally
    (store : List Reservation) (idv : Nat) (s : PaymentStatus)
    (pu : Option (Option String)) (now : Nat) (adminId : Option Nat) :
    ((updateReservationPayment store idv
        { paymentStatus := some s, paymentProofUrl := pu } now adminId).2).map
      (fun r => r.paymentStatus) =
    store.map (fun r => if r.id = idv then s else r.paymentStatus) := by
  unfold updateReservationPayment
  simp only [Option.isNone_some, Bool.false_and, Bool.false_eq_true,
    if_false, List.map_map]
  refine congrArg (fun f => List.map f store) ?_
  funext r
  by_cases h : r.id = idv <;>
    cases pu <;>
      by_cases hs : s = PaymentStatus.verified <;>
        simp [applyPaymentPayload, h, hs]

/-- Claim C6: marking a payment pending again rewrites every row with the
given id to carry `paymentStatus = pending` and null audit fields while
leaving every other field — the proof URL in particular — and every other
row unchanged; the write and read-model refresh do happen (`true`). -/
theorem markPaymentPending_frame (store : List Reservation) (idv now : Nat)
    (adminId : Option Nat) :
    handleMarkPaymentPending store idv now adminId =
      (true, store.map (fun r =>
        if r.id = idv then
          { r with paymentStatus := PaymentStatus.pending,
                   paymentVerifiedAt := none, paymentVerifiedBy := none }
        else r)) := by
  unfold handleMarkPaymentPending updateReservationPayment
  simp only [Option.isNone_some, Bool.false_and, Bool.false_eq_true, if_false]
  refine congrArg (fun f => (true, List.map f store)) ?_
  funext r
  by_cases h : r.id = idv <;> simp [applyPaymentPayload, h]

/-- Claim C7: the advisory rule reports a reservation cancellable iff its
status is neither `cancelled` nor `completed` and its start instant is at
least 24 hours after the current instant; a reservation starting in 23
hours is not cancellable, one starting in 25 hours is. -/
theorem canCancelReservation_cutoff (st : ReservationStatus)
    (startI now : Int) :
    (canCancelReservation st startI now = true ↔
      (st ≠ ReservationStatus.cancelled ∧ st ≠ ReservationStatus.completed ∧
        startI - now ≥ 24 * 60)) ∧
    canCancelReservation ReservationStatus.confirmed (now + 23 * 60) now = false ∧
    canCancelReservation ReservationStatus.confirmed (now + 25 * 60) now = true := by
  refine ⟨?_, ?_, ?_⟩
  · cases st <;> simp [canCancelReservation, isWithin24Hours]
  · simp [canCancelReservation, isWithin24Hours]
  · simp [canCancelReservation, isWithin24Hours]

/-- Witness for C7 at status `confirmed`, start 1500, current instant 0. -/
theorem canCancelReservation_cutoff_witness :
    (canCancelReservation ReservationStatus.confirmed 1500 0 = true ↔
      (ReservationStatus.confirmed ≠ ReservationStatus.cancelled ∧
        ReservationStatus.confirmed ≠ ReservationStatus.completed ∧
        (1500 : Int) - 0 ≥ 24 * 60)) ∧
    canCancelReservation ReservationStatus.confirmed ((0 : Int) + 23 * 60) 0 = false ∧
    canCancelReservation ReservationStatus.confirmed ((0 : Int) + 25 * 60) 0 = true :=
  canCancelReservation_cutoff ReservationStatus.confirmed 1500 0

/-- Claim C8: the three-disjunct overlap predicate is symmetric on valid
intervals (end strictly after start). -/
theorem overlaps_symmetric (a b c d : Nat) (hab : a < b) (hcd : c < d) :
    overlaps a b c d = overlaps c d a b := by
  rw [Bool.eq_iff_iff]
  simp only [overlaps, Bool.or_eq_true, Bool.and_eq_true, decide_eq_true_eq]
  omega

/-- Witness for C8 at the intervals (540, 630) and (600, 660). -/
theorem overlaps_symmetric_witness :
    540 < 630 ∧ 600 < 660 ∧
    overlaps 540 630 600 660 = overlaps 600 660 540 630 :=
  ⟨by decide, by decide, overlaps_symmetric 540 630 600 660 (by decide) (by decide)⟩

/-- Claim C9: the read model is role-redacted.  A member's view contains
only that member's reservations, all with empty requester name and contact;
an administrator's view carries each requester's name and contact as read
from the requester's profile.  `getUserReservations` additionally projects a
user's own non-cancelled reservations. -/
theorem loadReservations_role_redaction (principalId : Nat)
    (profiles : Nat → Option ProfileRec) (spaceNames : Nat → Option String)
    (db : List Reservation) (views : List ReservationView) (uid : Nat) :
    (∀ v ∈ loadReservations Role.member principalId profiles spaceNames db,
      v.userId = principalId ∧ v.userName = "" ∧ v.userContact = "") ∧
    (∀ v ∈ loadReservations Role.admin principalId profiles spaceNames db,
      v.userName = ((profiles v.userId).map ProfileRec.fullName).getD "" ∧
      v.userContact = ((profiles v.userId).map ProfileRec.phone).getD "") ∧
    (∀ v ∈ getUserReservations views uid,
      v.userId = uid ∧ v.status ≠ ReservationStatus.cancelled) := by
  refine ⟨?_, ?_, ?_⟩
  · intro v hv
    simp only [loadReservations, List.mem_map, List.mem_mergeSort,
      visibleRows, if_neg (by decide : ¬(Role.member = Role.admin)),
      List.mem_filter, decide_eq_true_eq] at hv
    obtain ⟨row, ⟨hrow, huid⟩, rfl⟩ := hv
    refine ⟨huid, ?_, ?_⟩ <;>
      simp [formatReservation]
  · intro v hv
    simp only [loadReservations, List.mem_map, List.mem_mergeSort,
      visibleRows, if_pos rfl] at hv
    obtain ⟨row, hrow, rfl⟩ := hv
    constructor <;> simp [formatReservation]
  · intro v hv
    simp only [getUserReservations, List.mem_mergeSort, List.mem_filter,
      Bool.and_eq_true, decide_eq_true_eq, Bool.not_eq_true',
      decide_eq_false_iff_not] at hv
    exact hv.2

/-- A stored reservation belonging to user 8, used by the C9 witness. -/
def resOtherUser : Reservation :=
  { id := 2, spaceId := 2, userId := 8, date := 20250601, startTime := ⟨16, 0⟩,
    endTime := ⟨17, 0⟩, event := "other", status := ReservationStatus.confirmed,
    createdAt := 12, requiresPayment := false,
    paymentStatus := PaymentStatus.notRequired, paymentProofUrl := none,
    paymentVerifiedAt := none, paymentVerifiedBy := none }

/-- Witness for C9 on a two-row store with principal 3 and one profile. -/
theorem loadReservations_role_redaction_witness :
    (∀ v ∈ loadReservations Role.member 3
        (fun i => if i = 8 then some ⟨"Bob", "555"⟩ else none) (fun _ => none)
        [resSubmitted, resOtherUser],
      v.userId = 3 ∧ v.userName = "" ∧ v.userContact = "") ∧
    (∀ v ∈ loadReservations Role.admin 3
        (fun i => if i = 8 then some ⟨"Bob", "555"⟩ else none) (fun _ => none)
        [resSubmitted, resOtherUser],
      v.userName = (((fun i => if i = 8 then some ⟨"Bob", "555"⟩ else none) v.userId).map
          ProfileRec.fullName).getD "" ∧
      v.userContact = (((fun i => if i = 8 then some ⟨"Bob", "555"⟩ else none) v.userId).map
          ProfileRec.phone).getD "") ∧
    (∀ v ∈ getUserReservations [] 3,
      v.userId = 3 ∧ v.status ≠ ReservationStatus.cancelled) :=
  loadReservations_role_redaction 3
    (fun i => if i = 8 then some ⟨"Bob", "555"⟩ else none) (fun _ => none)
    [resSubmitted, resOtherUser] [] 3

/-- Claim C10: a call to `updateReservationPayment` whose updates object has
neither `paymentStatus` nor `paymentProofUrl` defined returns before any
store write or read-model refresh and leaves every reservation unchanged. -/
theorem updateReservationPayment_empty_noop (store : List Reservation)
    (idv now : Nat) (adminId : Option Nat) :
    updateReservationPayment store idv
      { paymentStatus := none, paymentProofUrl := none } now adminId =
      (false, store) := rfl

end Reservas
